import Mathlib

/-! CPU accounting of `top.c`.

A shallow embedding of the tick accounting of `src/top.c`: the process
record `struct proc`, the per-process delta `cputicks`, and the
accumulation loop and report guard of `print_procs`.

Conventions of the embedding:
* `int`, `endpoint_t` and `pid_t` values are `Int`; `&` on them is `Int.land`;
* `u64_t` values are `Nat`, and every `u64_t` addition and subtraction is
  reduced modulo `2^64` explicitly (`u64_add`, `u64_sub`);
* a `struct proc *` table is the map from a slot index to the record stored
  in that slot, and a pointer `proc2 + p` is the slot index `p`.
-/

namespace Top

/-! ## Constants and macros -/

/-- Sort key value of `#define ORDER_CPU 0`. -/
def ORDER_CPU : Int := 0

/-- Sort key value of `#define ORDER_MEMORY 1`. -/
def ORDER_MEMORY : Int := 1

/-- The global `int order = ORDER_CPU;`. No function of the file reads it. -/
def order : Int := ORDER_CPU

/-- Number of cpu cycle types, `sizeof(cputimenames)/sizeof(cputimenames[0])`
for `cputimenames[] = { "user", "ipc", "kernelcall" }`. -/
def CPUTIMENAMES : Nat := 3

/-- The macro `CPUTIME(m, i)`, which is `(m & (1L << (i)))`. -/
def CPUTIME (m : Int) (i : Nat) : Int := Int.land m (((1 <<< i : Nat) : Int))

/-- Flag bit `#define USED 0x1`. -/
def USED : Int := 1

/-- Flag bit `#define IS_TASK 0x2`. -/
def IS_TASK : Int := 2

/-- Flag bit `#define IS_SYSTEM 0x4`. -/
def IS_SYSTEM : Int := 4

/-- Flag bit `#define BLOCKED 0x8`. -/
def BLOCKED : Int := 8

/-- Modulus of the `u64_t` arithmetic, `2^64`. -/
def U64_MOD : Nat := 18446744073709551616

/-- Addition of two `u64_t` values, as C computes it. -/
def u64_add (a b : Nat) : Nat := (a + b) % U64_MOD

/-- Subtraction of two `u64_t` values, as C computes it (wraps below zero). -/
def u64_sub (a b : Nat) : Nat := (a + (U64_MOD - b % U64_MOD)) % U64_MOD

/-! ## Data model -/

/-- The record `struct proc`. The array `p_cpucycles[CPUTIMENAMES]` is the
list of its elements. -/
structure proc where
  p_flags : Int
  p_endpoint : Int
  p_pid : Int
  p_cpucycles : List Nat
  p_priority : Int := 0
  p_blocked : Int := 0
  p_user_time : Nat := 0
  p_memory : Nat := 0
  p_effuid : Nat := 0
  p_nice : Int := 0
  p_name : String := ""
deriving DecidableEq

/-- Element `p->p_cpucycles[i]` of a record. -/
def proc.cycles (p : proc) (i : Nat) : Nat := p.p_cpucycles.getD i 0

/-- The record `struct tp`: the pointer `p` into the current table (kept as
the slot index it points to) and the ticks of that slot. -/
structure tp where
  p : Nat
  ticks : Nat
deriving DecidableEq, Repr

/-! ## `get_procs` -/

/-- The loop `for (i = 0; i < nr_total; i++) proc[i].p_flags = 0;` of
`get_procs`, run on the buffer that is reused for the new table: only the
flags of a slot are cleared, every other field keeps its old value until
`parse_file` writes the slot again. -/
def get_procs_clear (nr_total : Nat) (t : Nat → proc) : Nat → proc :=
  fun i => if i < nr_total then { t i with p_flags := 0 } else t i

/-! ## `cputicks` -/

/-- One iteration of the `for` loop of `cputicks`, for category `i`. -/
def cputicks_step (p1 p2 : proc) (timemode : Int) (t : Nat) (i : Nat) : Nat :=
  if CPUTIME timemode i = 0 then t
  else if p1.p_endpoint = p2.p_endpoint then
    u64_sub (u64_add t (p2.cycles i)) (p1.cycles i)
  else
    u64_add t (p2.cycles i)

/-- The function `cputicks(p1, p2, timemode)`: `t` starts at 0 and the loop
runs over `i = 0 .. CPUTIMENAMES-1`. -/
def cputicks (p1 p2 : proc) (timemode : Int) : Nat :=
  (List.range CPUTIMENAMES).foldl (cputicks_step p1 p2 timemode) 0

/-! ## `print_procs` -/

/-- The locals of `print_procs` that the loop updates. `tick_procs` is the
static buffer, indexed by position; its first `nprocs` positions are the
entries written by this call. -/
structure print_state where
  tick_procs : Nat → tp
  nprocs : Nat
  systemticks : Nat
  userticks : Nat
  total_ticks : Nat

/-- The entries `tick_procs[0..nprocs)`. -/
def print_state.entries (s : print_state) : List tp :=
  (List.range s.nprocs).map s.tick_procs

/-- The body of the `for` loop of `print_procs` at slot `p`. The first branch
is the `continue` taken when `proc2[p]` is not `USED`. -/
def print_procs_step (proc1 proc2 : Nat → proc) (cputimemode : Int)
    (s : print_state) (p : Nat) : print_state :=
  if Int.land (proc2 p).p_flags USED = 0 then s
  else
    let tick_procs1 := Function.update s.tick_procs s.nprocs
      { p := p, ticks := cputicks (proc1 p) (proc2 p) cputimemode }
    let uticks := cputicks (proc1 p) (proc2 p) 1
    let total_ticks1 := u64_add s.total_ticks uticks
    if Int.land (proc2 p).p_flags IS_TASK = 0 then
      if Int.land (proc2 p).p_flags IS_SYSTEM ≠ 0 then
        { tick_procs := tick_procs1, nprocs := s.nprocs + 1,
          systemticks := u64_add s.systemticks (tick_procs1 s.nprocs).ticks,
          userticks := s.userticks, total_ticks := total_ticks1 }
      else
        { tick_procs := tick_procs1, nprocs := s.nprocs + 1,
          systemticks := s.systemticks,
          userticks := u64_add s.userticks (tick_procs1 s.nprocs).ticks,
          total_ticks := total_ticks1 }
    else
      { tick_procs := tick_procs1, nprocs := s.nprocs + 1,
        systemticks := s.systemticks, userticks := s.userticks,
        total_ticks := total_ticks1 }

/-- The state of the locals before the loop: the counters are 0 and the
buffer holds whatever it held before the call. -/
def print_procs_init (tick_procs0 : Nat → tp) : print_state :=
  { tick_procs := tick_procs0, nprocs := 0, systemticks := 0, userticks := 0,
    total_ticks := 0 }

/-- The loop `for(p = nprocs = 0; p < nr_total; p++)` of `print_procs`. -/
def print_procs_loop (nr_total : Nat) (tick_procs0 : Nat → tp)
    (proc1 proc2 : Nat → proc) (cputimemode : Int) : print_state :=
  (List.range nr_total).foldl (print_procs_step proc1 proc2 cputimemode)
    (print_procs_init tick_procs0)

/-- The operands of one printed quotient `100.0 * dividend / divisor`. The
floating-point value itself is not modelled. -/
structure division where
  dividend : Nat
  divisor : Nat
deriving DecidableEq, Repr

/-- What a call of `print_procs` leaves: the locals after the loop and, unless
it returned at `if (total_ticks == 0) return;`, the quotients handed to the
four `printf` calls, in the order user, system, kernel, idle. -/
structure print_result where
  state : print_state
  printed : Option (List division)

/-- The function `print_procs(proc1, proc2, cputimemode)`. The global
`nr_total` and the buffer content are passed in. The identifiers
`kernelticks` and `idleticks` of the last two `printf` calls have no
declaration in the function (the two declarations are commented out) and
nothing assigns them, so their values are parameters. -/
def print_procs (nr_total : Nat) (kernelticks idleticks : Nat)
    (tick_procs0 : Nat → tp) (proc1 proc2 : Nat → proc) (cputimemode : Int) :
    print_result :=
  let s := print_procs_loop nr_total tick_procs0 proc1 proc2 cputimemode
  if s.total_ticks = 0 then
    { state := s, printed := none }
  else
    { state := s,
      printed := some
        [ { dividend := s.userticks, divisor := s.total_ticks },
          { dividend := s.systemticks, divisor := s.total_ticks },
          { dividend := kernelticks, divisor := s.total_ticks },
          { dividend := idleticks, divisor := s.total_ticks } ] }

/-! ## Concrete tables used in the examples -/

/-- A table from the list of its records; a slot past the list is an empty
record (flags 0). -/
def table (l : List proc) : Nat → proc :=
  fun i => l.getD i { p_flags := 0, p_endpoint := 0, p_pid := 0, p_cpucycles := [0, 0, 0] }

/-- A buffer whose positions all hold the entry (0, 0). -/
def blank_buffer : Nat → tp := fun _ => { p := 0, ticks := 0 }

/-! ## Reference quantities of the claims -/

/-- Sum of `f c` over the categories `c < CPUTIMENAMES` that the mask selects,
as a natural number. -/
def selected_sum (mask : Int) (f : Nat → Nat) : Nat :=
  (((List.range CPUTIMENAMES).filter (fun c => decide (CPUTIME mask c ≠ 0))).map f).sum

/-- Record of slot 3 in snapshot A of the first scenario. -/
def scenario_A3 : proc :=
  { p_flags := 1, p_endpoint := 3, p_pid := 10, p_cpucycles := [100, 10, 5] }

/-- Record of slot 3 in snapshot B of the first scenario. -/
def scenario_B3 : proc :=
  { p_flags := 1, p_endpoint := 3, p_pid := 10, p_cpucycles := [150, 10, 5] }

/-- A buffer as an earlier refresh filled it: slot 3 is `USED` with endpoint 3,
pid 11 and counters [7,0,0]; slots 0 to 2 are empty. -/
def earlier_fill : Nat → proc :=
  table [{ p_flags := 0, p_endpoint := 0, p_pid := 0, p_cpucycles := [0, 0, 0] },
         { p_flags := 0, p_endpoint := 0, p_pid := 0, p_cpucycles := [0, 0, 0] },
         { p_flags := 0, p_endpoint := 0, p_pid := 0, p_cpucycles := [0, 0, 0] },
         { p_flags := 1, p_endpoint := 3, p_pid := 11, p_cpucycles := [7, 0, 0] }]

/-- The previous table of the failing input: the buffer `earlier_fill` after
`get_procs` cleared the flags, in a refresh that read no record for slot 3. -/
def stale_table : Nat → proc := get_procs_clear 4 earlier_fill

/-- Slot 3 of `stale_table`: flags 0, and still the endpoint, pid and counters
of the earlier fill. -/
def stale_prev : proc :=
  { p_flags := 0, p_endpoint := 3, p_pid := 11, p_cpucycles := [7, 0, 0] }

/-- The current table of the failing input: slot 3 is `USED` with endpoint 3,
pid 11 and counters [20,0,0]. -/
def first_seen_table : Nat → proc :=
  table [{ p_flags := 0, p_endpoint := 0, p_pid := 0, p_cpucycles := [0, 0, 0] },
         { p_flags := 0, p_endpoint := 0, p_pid := 0, p_cpucycles := [0, 0, 0] },
         { p_flags := 0, p_endpoint := 0, p_pid := 0, p_cpucycles := [0, 0, 0] },
         { p_flags := 1, p_endpoint := 3, p_pid := 11, p_cpucycles := [20, 0, 0] }]

/-- The same slot in the current table: `USED`, endpoint 3, pid 11. -/
def first_seen_curr : proc :=
  { p_flags := 1, p_endpoint := 3, p_pid := 11, p_cpucycles := [20, 0, 0] }

/-- A `USED` record with endpoint 3 and pid 10. -/
def pid10_prev : proc :=
  { p_flags := 1, p_endpoint := 3, p_pid := 10, p_cpucycles := [2, 0, 0] }

/-- A `USED` record with the same endpoint 3 and pid 11. -/
def pid11_curr : proc :=
  { p_flags := 1, p_endpoint := 3, p_pid := 11, p_cpucycles := [5, 0, 0] }

/-- A `USED` record with endpoint 4 and pid 11. -/
def other_endpoint_curr : proc :=
  { p_flags := 1, p_endpoint := 4, p_pid := 11, p_cpucycles := [5, 0, 0] }

/-- The test `proc2[p].p_flags & USED` on slot `p` of a table. -/
def slot_used (t : Nat → proc) (p : Nat) : Bool :=
  decide (Int.land (t p).p_flags USED ≠ 0)

/-- The test `proc2[p].p_flags & IS_TASK` on slot `p` of a table. -/
def slot_task (t : Nat → proc) (p : Nat) : Bool :=
  decide (Int.land (t p).p_flags IS_TASK ≠ 0)

/-- The test `proc2[p].p_flags & IS_SYSTEM` on slot `p` of a table. -/
def slot_system (t : Nat → proc) (p : Nat) : Bool :=
  decide (Int.land (t p).p_flags IS_SYSTEM ≠ 0)

/-- The slots `0 .. nr_total-1` that are `USED` in a table, in ascending order. -/
def used_slots (nr_total : Nat) (t : Nat → proc) : List Nat :=
  (List.range nr_total).filter (slot_used t)

/-- The slots that are `USED`, not `IS_TASK` and not `IS_SYSTEM`. -/
def user_slots (nr_total : Nat) (t : Nat → proc) : List Nat :=
  (List.range nr_total).filter
    (fun p => slot_used t p && (!slot_task t p && !slot_system t p))

/-- The slots that are `USED`, not `IS_TASK` and `IS_SYSTEM`. -/
def system_slots (nr_total : Nat) (t : Nat → proc) : List Nat :=
  (List.range nr_total).filter
    (fun p => slot_used t p && (!slot_task t p && slot_system t p))

/-- Sum of `f p` over the slots of a list, as a natural number. -/
def slot_sum (l : List Nat) (f : Nat → Nat) : Nat := (l.map f).sum

/-- The ticks of slot `p` under a mask, `cputicks(&proc1[p], &proc2[p], mask)`. -/
def slot_ticks (proc1 proc2 : Nat → proc) (mask : Int) (p : Nat) : Nat :=
  cputicks (proc1 p) (proc2 p) mask

/-- Previous table with one slot: a `USED` user process, endpoint 1, pid 5,
counters [10,4,0]. -/
def one_user_prev : Nat → proc :=
  table [{ p_flags := 1, p_endpoint := 1, p_pid := 5, p_cpucycles := [10, 4, 0] }]

/-- Current table with the same process, counters [11,6,0]. -/
def one_user_curr : Nat → proc :=
  table [{ p_flags := 1, p_endpoint := 1, p_pid := 5, p_cpucycles := [11, 6, 0] }]

/-- Previous table with one slot: a `USED` task (flags `USED | IS_TASK`),
endpoint -1, counters [10,0,0]. -/
def one_task_prev : Nat → proc :=
  table [{ p_flags := 3, p_endpoint := -1, p_pid := -1, p_cpucycles := [10, 0, 0] }]

/-- Current table with the same task, counters [15,0,0]. -/
def one_task_curr : Nat → proc :=
  table [{ p_flags := 3, p_endpoint := -1, p_pid := -1, p_cpucycles := [15, 0, 0] }]

/-- Previous table with two `USED` user processes, both with counters [0,0,0]. -/
def two_users_prev : Nat → proc :=
  table [{ p_flags := 1, p_endpoint := 1, p_pid := 5, p_cpucycles := [0, 0, 0], p_memory := 1 },
         { p_flags := 1, p_endpoint := 2, p_pid := 6, p_cpucycles := [0, 0, 0], p_memory := 2 }]

/-- Current table with the same two processes: slot 0 has counters [1,0,0] and
memory 1, slot 1 has counters [2,0,0] and memory 2. -/
def two_users_curr : Nat → proc :=
  table [{ p_flags := 1, p_endpoint := 1, p_pid := 5, p_cpucycles := [1, 0, 0], p_memory := 1 },
         { p_flags := 1, p_endpoint := 2, p_pid := 6, p_cpucycles := [2, 0, 0], p_memory := 2 }]

/-- Current table with three slots: slot 0 not `USED` (flags 0) with counters
[9,9,9], slots 1 and 2 the two processes of `two_users_curr`. -/
def gap_curr : Nat → proc :=
  table [{ p_flags := 0, p_endpoint := 7, p_pid := 70, p_cpucycles := [9, 9, 9] },
         { p_flags := 1, p_endpoint := 1, p_pid := 5, p_cpucycles := [1, 0, 0], p_memory := 1 },
         { p_flags := 1, p_endpoint := 2, p_pid := 6, p_cpucycles := [2, 0, 0], p_memory := 2 }]

/-- The table `gap_curr` with other contents in its slot 0, which stays not
`USED`: flags `IS_SYSTEM | BLOCKED`, another endpoint, other counters. -/
def gap_curr_changed : Nat → proc :=
  table [{ p_flags := 12, p_endpoint := 8, p_pid := 80, p_cpucycles := [1000, 0, 5] },
         { p_flags := 1, p_endpoint := 1, p_pid := 5, p_cpucycles := [1, 0, 0], p_memory := 1 },
         { p_flags := 1, p_endpoint := 2, p_pid := 6, p_cpucycles := [2, 0, 0], p_memory := 2 }]

/-- Previous table for `gap_curr`: slot 0 not `USED`, slots 1 and 2 the two
processes with counters [0,0,0]. -/
def gap_prev : Nat → proc :=
  table [{ p_flags := 0, p_endpoint := 7, p_pid := 70, p_cpucycles := [3, 3, 3] },
         { p_flags := 1, p_endpoint := 1, p_pid := 5, p_cpucycles := [0, 0, 0], p_memory := 1 },
         { p_flags := 1, p_endpoint := 2, p_pid := 6, p_cpucycles := [0, 0, 0], p_memory := 2 }]

/-- Previous table with a user process (slot 0), a system process (slot 1,
flags `USED | IS_SYSTEM`) and a task (slot 2, flags `USED | IS_TASK`). -/
def mixed_prev : Nat → proc :=
  table [{ p_flags := 1, p_endpoint := 1, p_pid := 5, p_cpucycles := [100, 0, 0] },
         { p_flags := 5, p_endpoint := 2, p_pid := 6, p_cpucycles := [100, 0, 0] },
         { p_flags := 3, p_endpoint := -1, p_pid := -1, p_cpucycles := [100, 0, 0] }]

/-- Current table for `mixed_prev`: the user process consumed 700 cycles of
category 0, the system process 200 and the task 100. -/
def mixed_curr : Nat → proc :=
  table [{ p_flags := 1, p_endpoint := 1, p_pid := 5, p_cpucycles := [800, 0, 0] },
         { p_flags := 5, p_endpoint := 2, p_pid := 6, p_cpucycles := [300, 0, 0] },
         { p_flags := 3, p_endpoint := -1, p_pid := -1, p_cpucycles := [200, 0, 0] }]

/-! ## Lemmas on `cputicks` -/

theorem cputicks_unroll (p1 p2 : proc) (m : Int) :
    cputicks p1 p2 m =
      cputicks_step p1 p2 m (cputicks_step p1 p2 m (cputicks_step p1 p2 m 0 0) 1) 2 := by
  rfl

theorem selected_sum_unroll (m : Int) (f : Nat → Nat) :
    selected_sum m f =
      (if CPUTIME m 0 = 0 then 0 else f 0) + ((if CPUTIME m 1 = 0 then 0 else f 1)
        + (if CPUTIME m 2 = 0 then 0 else f 2)) := by
  have hr : List.range CPUTIMENAMES = [0, 1, 2] := by decide
  unfold selected_sum
  rw [hr]
  by_cases h0 : CPUTIME m 0 = 0 <;> by_cases h1 : CPUTIME m 1 = 0 <;>
    by_cases h2 : CPUTIME m 2 = 0 <;> simp [List.filter, h0, h1, h2]

theorem cputicks_same_endpoint_mod (p1 p2 : proc) (m : Int)
    (he : p1.p_endpoint = p2.p_endpoint)
    (hmono : ∀ c, c < CPUTIMENAMES → CPUTIME m c ≠ 0 → p1.cycles c ≤ p2.cycles c) :
    cputicks p1 p2 m = selected_sum m (fun c => p2.cycles c - p1.cycles c) % U64_MOD := by
  have h0 := hmono 0 (by decide)
  have h1 := hmono 1 (by decide)
  have h2 := hmono 2 (by decide)
  rw [cputicks_unroll, selected_sum_unroll]
  simp only [cputicks_step, he, if_true, u64_add, u64_sub, U64_MOD]
  by_cases c0 : CPUTIME m 0 = 0 <;> by_cases c1 : CPUTIME m 1 = 0 <;>
    by_cases c2 : CPUTIME m 2 = 0 <;> simp only [c0, c1, c2, if_true, if_false] <;> omega

theorem cputicks_other_endpoint_mod (p1 p2 : proc) (m : Int)
    (he : p1.p_endpoint ≠ p2.p_endpoint) :
    cputicks p1 p2 m = selected_sum m p2.cycles % U64_MOD := by
  rw [cputicks_unroll, selected_sum_unroll]
  simp only [cputicks_step, he, if_false, u64_add, U64_MOD]
  by_cases c0 : CPUTIME m 0 = 0 <;> by_cases c1 : CPUTIME m 1 = 0 <;>
    by_cases c2 : CPUTIME m 2 = 0 <;> simp only [c0, c1, c2, if_true, if_false] <;> omega

theorem cputicks_lt (p1 p2 : proc) (m : Int) : cputicks p1 p2 m < U64_MOD := by
  rw [cputicks_unroll]
  simp only [cputicks_step, u64_add, u64_sub, U64_MOD]
  split_ifs <;> omega

/-! ## Lemmas on the loop of `print_procs` -/

theorem step_not_used (proc1 proc2 : Nat → proc) (m : Int) (s : print_state) (p : Nat)
    (h : slot_used proc2 p = false) : print_procs_step proc1 proc2 m s p = s := by
  have h0 : Int.land (proc2 p).p_flags USED = 0 := by
    simpa [slot_used] using h
  simp [print_procs_step, h0]

theorem step_nprocs (proc1 proc2 : Nat → proc) (m : Int) (s : print_state) (p : Nat) :
    (print_procs_step proc1 proc2 m s p).nprocs
      = if slot_used proc2 p then s.nprocs + 1 else s.nprocs := by
  unfold print_procs_step slot_used
  split_ifs <;> simp_all

theorem step_total (proc1 proc2 : Nat → proc) (m : Int) (s : print_state) (p : Nat) :
    (print_procs_step proc1 proc2 m s p).total_ticks
      = if slot_used proc2 p then u64_add s.total_ticks (slot_ticks proc1 proc2 1 p)
        else s.total_ticks := by
  unfold print_procs_step slot_used slot_ticks
  split_ifs <;> simp_all

theorem step_user (proc1 proc2 : Nat → proc) (m : Int) (s : print_state) (p : Nat) :
    (print_procs_step proc1 proc2 m s p).userticks
      = if slot_used proc2 p && (!slot_task proc2 p && !slot_system proc2 p)
        then u64_add s.userticks (slot_ticks proc1 proc2 m p) else s.userticks := by
  unfold print_procs_step slot_used slot_task slot_system slot_ticks
  split_ifs <;> simp_all

theorem step_system (proc1 proc2 : Nat → proc) (m : Int) (s : print_state) (p : Nat) :
    (print_procs_step proc1 proc2 m s p).systemticks
      = if slot_used proc2 p && (!slot_task proc2 p && slot_system proc2 p)
        then u64_add s.systemticks (slot_ticks proc1 proc2 m p) else s.systemticks := by
  unfold print_procs_step slot_used slot_task slot_system slot_ticks
  split_ifs <;> simp_all

theorem step_entries (proc1 proc2 : Nat → proc) (m : Int) (s : print_state) (p : Nat) :
    (print_procs_step proc1 proc2 m s p).entries
      = if slot_used proc2 p
        then s.entries ++ [{ p := p, ticks := slot_ticks proc1 proc2 m p }]
        else s.entries := by
  by_cases h : slot_used proc2 p = true
  · have h0 : ¬ Int.land (proc2 p).p_flags USED = 0 := by
      simpa [slot_used] using h
    have hn := step_nprocs proc1 proc2 m s p
    rw [if_pos h] at hn
    have hb : (print_procs_step proc1 proc2 m s p).tick_procs
        = Function.update s.tick_procs s.nprocs
            { p := p, ticks := slot_ticks proc1 proc2 m p } := by
      unfold print_procs_step slot_ticks
      split_ifs <;> rfl
    rw [if_pos h]
    unfold print_state.entries
    rw [hn, hb, List.range_succ, List.map_append]
    congr 1
    · apply List.map_congr_left
      intro i hi
      have : i ≠ s.nprocs := by
        have := List.mem_range.mp hi
        omega
      exact Function.update_noteq this _ _
    · simp
  · have hf : slot_used proc2 p = false := by simpa using h
    rw [step_not_used proc1 proc2 m s p hf]
    simp [hf]

theorem foldl_entries (proc1 proc2 : Nat → proc) (m : Int) (l : List Nat) :
    ∀ s : print_state,
      (l.foldl (print_procs_step proc1 proc2 m) s).entries
        = s.entries ++ (l.filter (slot_used proc2)).map
            (fun p => ({ p := p, ticks := slot_ticks proc1 proc2 m p } : tp)) := by
  induction l with
  | nil => intro s; simp
  | cons p l ih =>
    intro s
    rw [List.foldl_cons, ih, step_entries]
    by_cases h : slot_used proc2 p = true
    · simp [h, List.filter_cons]
    · have hf : slot_used proc2 p = false := by simpa using h
      simp [hf, List.filter_cons]

theorem foldl_nprocs (proc1 proc2 : Nat → proc) (m : Int) (l : List Nat) :
    ∀ s : print_state,
      (l.foldl (print_procs_step proc1 proc2 m) s).nprocs
        = s.nprocs + (l.filter (slot_used proc2)).length := by
  induction l with
  | nil => intro s; simp
  | cons p l ih =>
    intro s
    rw [List.foldl_cons, ih, step_nprocs]
    by_cases h : slot_used proc2 p = true
    · simp [h, List.filter_cons]; omega
    · have hf : slot_used proc2 p = false := by simpa using h
      simp [hf, List.filter_cons]

/-- A `u64_t` accumulator that a fold updates by `u64_add` on the selected
slots holds the sum over those slots modulo `2^64`. -/
theorem foldl_u64_acc {σ : Type} (step : σ → Nat → σ) (proj : σ → Nat) (c : Nat → Bool)
    (v : Nat → Nat)
    (hstep : ∀ s p, proj (step s p) = if c p then u64_add (proj s) (v p) else proj s)
    (l : List Nat) :
    ∀ s : σ, proj s < U64_MOD →
      proj (l.foldl step s) = (proj s + slot_sum (l.filter c) v) % U64_MOD := by
  induction l with
  | nil =>
    intro s hs
    simp [slot_sum, Nat.mod_eq_of_lt hs]
  | cons p l ih =>
    intro s hs
    rw [List.foldl_cons]
    by_cases h : c p = true
    · have h1 : proj (step s p) = u64_add (proj s) (v p) := by rw [hstep, if_pos h]
      have hlt : proj (step s p) < U64_MOD := by
        rw [h1]; exact Nat.mod_lt _ (by decide)
      rw [ih _ hlt, h1]
      simp only [List.filter_cons, h, if_true, slot_sum, List.map_cons, List.sum_cons, u64_add,
        U64_MOD]
      omega
    · have hf : c p = false := by simpa using h
      have h1 : proj (step s p) = proj s := by rw [hstep]; simp [hf]
      rw [ih _ (h1 ▸ hs), h1]
      simp [List.filter_cons, hf]

theorem loop_entries (n : Nat) (buf : Nat → tp) (proc1 proc2 : Nat → proc) (m : Int) :
    (print_procs_loop n buf proc1 proc2 m).entries
      = (used_slots n proc2).map
          (fun p => ({ p := p, ticks := slot_ticks proc1 proc2 m p } : tp)) := by
  unfold print_procs_loop
  rw [foldl_entries]
  simp [print_procs_init, print_state.entries, used_slots]

theorem loop_nprocs (n : Nat) (buf : Nat → tp) (proc1 proc2 : Nat → proc) (m : Int) :
    (print_procs_loop n buf proc1 proc2 m).nprocs = (used_slots n proc2).length := by
  unfold print_procs_loop
  rw [foldl_nprocs]
  simp [print_procs_init, used_slots]

theorem loop_total (n : Nat) (buf : Nat → tp) (proc1 proc2 : Nat → proc) (m : Int) :
    (print_procs_loop n buf proc1 proc2 m).total_ticks
      = slot_sum (used_slots n proc2) (slot_ticks proc1 proc2 1) % U64_MOD := by
  unfold print_procs_loop
  rw [foldl_u64_acc (print_procs_step proc1 proc2 m) print_state.total_ticks (slot_used proc2)
    (slot_ticks proc1 proc2 1) (step_total proc1 proc2 m) _ _ (by simp [print_procs_init, U64_MOD])]
  simp [print_procs_init, used_slots]

theorem loop_user (n : Nat) (buf : Nat → tp) (proc1 proc2 : Nat → proc) (m : Int) :
    (print_procs_loop n buf proc1 proc2 m).userticks
      = slot_sum (user_slots n proc2) (slot_ticks proc1 proc2 m) % U64_MOD := by
  unfold print_procs_loop
  rw [foldl_u64_acc (print_procs_step proc1 proc2 m) print_state.userticks _
    (slot_ticks proc1 proc2 m) (step_user proc1 proc2 m) _ _ (by simp [print_procs_init, U64_MOD])]
  simp [print_procs_init, user_slots]

theorem loop_system (n : Nat) (buf : Nat → tp) (proc1 proc2 : Nat → proc) (m : Int) :
    (print_procs_loop n buf proc1 proc2 m).systemticks
      = slot_sum (system_slots n proc2) (slot_ticks proc1 proc2 m) % U64_MOD := by
  unfold print_procs_loop
  rw [foldl_u64_acc (print_procs_step proc1 proc2 m) print_state.systemticks _
    (slot_ticks proc1 proc2 m) (step_system proc1 proc2 m) _ _ (by simp [print_procs_init, U64_MOD])]
  simp [print_procs_init, system_slots]

theorem print_procs_state (n k i : Nat) (buf : Nat → tp) (proc1 proc2 : Nat → proc) (m : Int) :
    (print_procs n k i buf proc1 proc2 m).state = print_procs_loop n buf proc1 proc2 m := by
  unfold print_procs
  simp only []
  split_ifs <;> rfl

theorem printed_divisor (n k i : Nat) (buf : Nat → tp) (proc1 proc2 : Nat → proc) (m : Int)
    (r : List division) (hr : (print_procs n k i buf proc1 proc2 m).printed = some r)
    (d : division) (hd : d ∈ r) :
    d.divisor = (print_procs_loop n buf proc1 proc2 m).total_ticks ∧ d.divisor ≠ 0 := by
  unfold print_procs at hr
  simp only [] at hr
  by_cases h0 : (print_procs_loop n buf proc1 proc2 m).total_ticks = 0
  · rw [if_pos h0] at hr
    simp at hr
  · rw [if_neg h0] at hr
    simp only [Option.some.injEq] at hr
    subst hr
    simp only [List.mem_cons, List.mem_singleton, List.not_mem_nil, or_false] at hd
    rcases hd with h | h | h | h <;> rw [h] <;> exact ⟨rfl, h0⟩

theorem printed_none_iff (n k i : Nat) (buf : Nat → tp) (proc1 proc2 : Nat → proc) (m : Int) :
    (print_procs n k i buf proc1 proc2 m).printed = none
      ↔ (print_procs_loop n buf proc1 proc2 m).total_ticks = 0 := by
  unfold print_procs
  simp only []
  by_cases h0 : (print_procs_loop n buf proc1 proc2 m).total_ticks = 0
  · simp [h0]
  · simp [h0]

/-! ## Claims on `cputicks` -/

/-- C1: for two records with the same endpoint (the `USED` flags and the pid,
which the claim also assumes equal, are not consulted by `cputicks`), and
for every mask, if every selected counter is non-decreasing from `prev` to
`curr` and the sum of the selected differences is at most `2^64 - 1`, then
`cputicks` returns exactly that sum, as a natural number without wrap. -/
theorem cputicks_same_identity_delta (prev curr : proc) (mask : Int)
    (he : prev.p_endpoint = curr.p_endpoint)
    (hmono : ∀ c, c < CPUTIMENAMES → CPUTIME mask c ≠ 0 → prev.cycles c ≤ curr.cycles c)
    (hsum : selected_sum mask (fun c => curr.cycles c - prev.cycles c) ≤ 2 ^ 64 - 1) :
    cputicks prev curr mask = selected_sum mask (fun c => curr.cycles c - prev.cycles c) := by
  rw [cputicks_same_endpoint_mod prev curr mask he hmono]
  apply Nat.mod_eq_of_lt
  simp only [U64_MOD]
  omega

theorem cputicks_same_identity_delta_witness :
    cputicks scenario_A3 scenario_B3 7
      = selected_sum 7 (fun c => scenario_B3.cycles c - scenario_A3.cycles c) :=
  cputicks_same_identity_delta scenario_A3 scenario_B3 7 (by decide) (by decide) (by decide)

/-- C2 (evaluation of the code at the failing input): `get_procs` clears only
the flags, so slot 3 of the previous table is not `USED` (flags 0) and still
holds endpoint 3 and counters [7,0,0]; in the current table slot 3 is `USED`
with endpoint 3 and counters [20,0,0]. With all categories selected the full
sum of the current counters is 20, and `cputicks` returns 13; `print_procs`
records 13 for the slot. -/
theorem cputicks_first_seen_stale_endpoint :
    stale_table 3 = stale_prev ∧ first_seen_table 3 = first_seen_curr ∧
      slot_used stale_table 3 = false ∧ slot_used first_seen_table 3 = true ∧
      selected_sum 7 first_seen_curr.cycles = 20 ∧
      cputicks stale_prev first_seen_curr 7 = 13 ∧
      (print_procs 4 0 0 blank_buffer stale_table first_seen_table 7).state.entries
        = [{ p := 3, ticks := 13 }] := by
  decide

/-- C3 (counterexample): two `USED` records with the same endpoint 3 and pids
10 and 11, previous counters [2,0,0], current counters [5,0,0], all
categories selected: the full sum of the current counters is 5, and
`cputicks` returns 3. -/
theorem cputicks_pid_change_subtracts :
    Int.land pid10_prev.p_flags USED ≠ 0 ∧ Int.land pid11_curr.p_flags USED ≠ 0 ∧
      pid10_prev.p_endpoint = pid11_curr.p_endpoint ∧ pid10_prev.p_pid ≠ pid11_curr.p_pid ∧
      selected_sum 7 pid11_curr.cycles = 5 ∧
      cputicks pid10_prev pid11_curr 7 = 3 ∧
      cputicks pid10_prev pid11_curr 7 ≠ selected_sum 7 pid11_curr.cycles := by
  decide

/-- C3 (amended): for two records whose endpoints differ, whatever their pids,
and for every mask, `cputicks` returns the sum of the selected current
counters reduced modulo `2^64`, hence the full sum whenever it fits in 64
bits, and never subtracts a counter of `prev`; for current counters [5,0,0]
and a mask selecting category 0 (such as the mask of all categories) the
result is 5. -/
theorem cputicks_endpoint_change_full (prev curr : proc) (mask : Int)
    (he : prev.p_endpoint ≠ curr.p_endpoint) :
    cputicks prev curr mask = selected_sum mask curr.cycles % U64_MOD ∧
      (selected_sum mask curr.cycles < U64_MOD →
        cputicks prev curr mask = selected_sum mask curr.cycles) ∧
      (curr.p_cpucycles = [5, 0, 0] → CPUTIME mask 0 ≠ 0 → cputicks prev curr mask = 5) := by
  have h := cputicks_other_endpoint_mod prev curr mask he
  refine ⟨h, fun hlt => ?_, fun hc h0 => ?_⟩
  · rw [h, Nat.mod_eq_of_lt hlt]
  · rw [h, selected_sum_unroll]
    simp only [proc.cycles, hc, h0, if_false, U64_MOD]
    split_ifs <;> simp

theorem cputicks_endpoint_change_full_witness :
    cputicks pid10_prev other_endpoint_curr 7
        = selected_sum 7 other_endpoint_curr.cycles % U64_MOD ∧
      (selected_sum 7 other_endpoint_curr.cycles < U64_MOD →
        cputicks pid10_prev other_endpoint_curr 7 = selected_sum 7 other_endpoint_curr.cycles) ∧
      (other_endpoint_curr.p_cpucycles = [5, 0, 0] → CPUTIME 7 0 ≠ 0 →
        cputicks pid10_prev other_endpoint_curr 7 = 5) :=
  cputicks_endpoint_change_full pid10_prev other_endpoint_curr 7 (by decide)

/-- C9 (counterexample): for the records of the scenario (slot 3 `USED` in
both, endpoint 3, pid 10, counters [100,10,5] and [150,10,5]) and the mask 7
selecting all categories, `cputicks` does not return 45. -/
theorem cputicks_scenario_not_45 : cputicks scenario_A3 scenario_B3 7 ≠ 45 := by
  decide

/-- C9 (amended): for the records of the scenario and every mask selecting all
three categories, `cputicks` returns 50, which is (150-100) + (10-10) + (5-5). -/
theorem cputicks_scenario_50 (mask : Int) (h0 : CPUTIME mask 0 ≠ 0)
    (h1 : CPUTIME mask 1 ≠ 0) (h2 : CPUTIME mask 2 ≠ 0) :
    cputicks scenario_A3 scenario_B3 mask = 50 := by
  rw [cputicks_unroll]
  simp [cputicks_step, h0, h1, h2, scenario_A3, scenario_B3, proc.cycles, u64_add, u64_sub,
    U64_MOD]

theorem cputicks_scenario_50_witness : cputicks scenario_A3 scenario_B3 7 = 50 :=
  cputicks_scenario_50 7 (by decide) (by decide) (by decide)

/-! ## Claims on `print_procs` -/

/-- C4 (counterexample): one `USED` slot with the same identity in both tables,
counters [10,4,0] then [11,6,0]. The delta over all three categories (mask 7)
is 3, and `total_ticks` is 1. -/
theorem total_ticks_not_all_categories :
    slot_sum (used_slots 1 one_user_curr) (slot_ticks one_user_prev one_user_curr 7) = 3 ∧
      (print_procs 1 0 0 blank_buffer one_user_prev one_user_curr 7).state.total_ticks = 1 ∧
      (print_procs 1 0 0 blank_buffer one_user_prev one_user_curr 7).state.total_ticks
        ≠ slot_sum (used_slots 1 one_user_curr) (slot_ticks one_user_prev one_user_curr 7) := by
  decide

/-- C4 (amended): for every pair of tables and every mask `cputimemode`, the
`total_ticks` of `print_procs` is the sum, over the slots `USED` in the
current table, of `cputicks(&prev[i], &curr[i], 1)`, the delta of category 0
(user) alone, reduced modulo `2^64`; it is the divisor of every printed
quotient. -/
theorem total_ticks_user_category (nr_total kernelticks idleticks : Nat) (buf : Nat → tp)
    (prev curr : Nat → proc) (cputimemode : Int) :
    (print_procs nr_total kernelticks idleticks buf prev curr cputimemode).state.total_ticks
        = slot_sum (used_slots nr_total curr) (slot_ticks prev curr 1) % U64_MOD ∧
      ∀ r, (print_procs nr_total kernelticks idleticks buf prev curr cputimemode).printed
          = some r →
        ∀ d ∈ r, d.divisor
          = slot_sum (used_slots nr_total curr) (slot_ticks prev curr 1) % U64_MOD := by
  refine ⟨by rw [print_procs_state, loop_total], ?_⟩
  intro r hr d hd
  rw [← loop_total nr_total buf prev curr cputimemode]
  exact (printed_divisor nr_total kernelticks idleticks buf prev curr cputimemode r hr d hd).1

/-- C5 (counterexample): one slot, `USED` and `IS_TASK`, with counters [10,0,0]
then [15,0,0], so its ticks are 5. It is entered in `tick_procs` and counted
in `total_ticks`, and no bucket receives its ticks: `userticks` and
`systemticks` are 0 and the four printed dividends are 0. -/
theorem task_slot_in_no_bucket :
    slot_used one_task_curr 0 = true ∧ slot_task one_task_curr 0 = true ∧
      (print_procs 1 0 0 blank_buffer one_task_prev one_task_curr 1).state.entries
        = [{ p := 0, ticks := 5 }] ∧
      (print_procs 1 0 0 blank_buffer one_task_prev one_task_curr 1).state.userticks = 0 ∧
      (print_procs 1 0 0 blank_buffer one_task_prev one_task_curr 1).state.systemticks = 0 ∧
      (print_procs 1 0 0 blank_buffer one_task_prev one_task_curr 1).printed
        = some [{ dividend := 0, divisor := 5 }, { dividend := 0, divisor := 5 },
                { dividend := 0, divisor := 5 }, { dividend := 0, divisor := 5 }] := by
  decide

/-- C5 (amended): the loop of `print_procs` keeps two buckets. A slot `USED` in
the current table adds its ticks (its delta under `cputimemode`) to
`systemticks` alone if it is not `IS_TASK` and is `IS_SYSTEM`, to `userticks`
alone if it is neither `IS_TASK` nor `IS_SYSTEM`, and to neither if it is
`IS_TASK`; so `userticks` and `systemticks` are the sums, modulo `2^64`, of
the ticks of the slots of their class. -/
theorem buckets_partition (nr_total kernelticks idleticks : Nat) (buf : Nat → tp)
    (prev curr : Nat → proc) (cputimemode : Int) :
    (print_procs nr_total kernelticks idleticks buf prev curr cputimemode).state.userticks
        = slot_sum (user_slots nr_total curr) (slot_ticks prev curr cputimemode) % U64_MOD ∧
      (print_procs nr_total kernelticks idleticks buf prev curr cputimemode).state.systemticks
        = slot_sum (system_slots nr_total curr) (slot_ticks prev curr cputimemode) % U64_MOD ∧
      ∀ (s : print_state) (p : Nat), slot_used curr p = true →
        ((slot_task curr p = false ∧ slot_system curr p = true) →
          (print_procs_step prev curr cputimemode s p).systemticks
              = u64_add s.systemticks (slot_ticks prev curr cputimemode p) ∧
            (print_procs_step prev curr cputimemode s p).userticks = s.userticks) ∧
        ((slot_task curr p = false ∧ slot_system curr p = false) →
          (print_procs_step prev curr cputimemode s p).userticks
              = u64_add s.userticks (slot_ticks prev curr cputimemode p) ∧
            (print_procs_step prev curr cputimemode s p).systemticks = s.systemticks) ∧
        (slot_task curr p = true →
          (print_procs_step prev curr cputimemode s p).userticks = s.userticks ∧
            (print_procs_step prev curr cputimemode s p).systemticks = s.systemticks) := by
  refine ⟨by rw [print_procs_state, loop_user], by rw [print_procs_state, loop_system], ?_⟩
  intro s p hu
  rw [step_user, step_system]
  refine ⟨?_, ?_, ?_⟩
  · rintro ⟨ht, hs⟩; simp [hu, ht, hs]
  · rintro ⟨ht, hs⟩; simp [hu, ht, hs]
  · intro ht; simp [ht]

/-- C6 (counterexample): two `USED` slots, slot 0 with ticks 1 and memory 1,
slot 1 with ticks 2 and memory 2. The entries left in `tick_procs` are slot 0
then slot 1: neither the ticks nor the `p_memory` values are non-increasing. -/
theorem entries_not_ranked :
    (print_procs 2 0 0 blank_buffer two_users_prev two_users_curr 1).state.entries
        = [{ p := 0, ticks := 1 }, { p := 1, ticks := 2 }] ∧
      ¬ List.Pairwise (fun a b => b.ticks ≤ a.ticks)
          (print_procs 2 0 0 blank_buffer two_users_prev two_users_curr 1).state.entries ∧
      ¬ List.Pairwise (fun a b => (two_users_curr b.p).p_memory ≤ (two_users_curr a.p).p_memory)
          (print_procs 2 0 0 blank_buffer two_users_prev two_users_curr 1).state.entries := by
  decide

/-- C6 (amended): for every pair of tables and every mask, the entries that
`print_procs` leaves in `tick_procs[0..nprocs)` are the slots `USED` in the
current table in strictly ascending slot index, each with its ticks under
`cputimemode`; no ranking by ticks or by `p_memory` is applied. -/
theorem entries_in_slot_order (nr_total kernelticks idleticks : Nat) (buf : Nat → tp)
    (prev curr : Nat → proc) (cputimemode : Int) :
    (print_procs nr_total kernelticks idleticks buf prev curr cputimemode).state.entries
        = (used_slots nr_total curr).map
            (fun p => ({ p := p, ticks := cputicks (prev p) (curr p) cputimemode } : tp)) ∧
      List.Pairwise (fun a b => a.p < b.p)
        (print_procs nr_total kernelticks idleticks buf prev curr cputimemode).state.entries := by
  have h : (print_procs nr_total kernelticks idleticks buf prev curr cputimemode).state.entries
      = (used_slots nr_total curr).map
          (fun p => ({ p := p, ticks := cputicks (prev p) (curr p) cputimemode } : tp)) := by
    rw [print_procs_state, loop_entries]
    rfl
  refine ⟨h, ?_⟩
  rw [h, List.pairwise_map]
  exact (List.pairwise_lt_range nr_total).filter _

/-- C7: for every pair of tables and every mask, the loop body leaves all
locals unchanged at a slot that is not `USED` in the current table (no entry,
nothing added to `total_ticks`, `userticks` or `systemticks`); the entries
are exactly the slots `USED` in the current table and `nprocs` is their
number; and a current table that differs only in the contents of slots that
are not `USED` (and stay so) gives the same result, entries and aggregates
and printed quotients alike. -/
theorem unused_slot_contributes_nothing (nr_total kernelticks idleticks : Nat)
    (buf : Nat → tp) (prev curr : Nat → proc) (cputimemode : Int) :
    (∀ (s : print_state) (p : Nat), slot_used curr p = false →
        print_procs_step prev curr cputimemode s p = s) ∧
      (print_procs nr_total kernelticks idleticks buf prev curr cputimemode).state.entries.map
          tp.p = used_slots nr_total curr ∧
      (print_procs nr_total kernelticks idleticks buf prev curr cputimemode).state.nprocs
        = (used_slots nr_total curr).length ∧
      ∀ curr2 : Nat → proc,
        (∀ p, p < nr_total → slot_used curr p = true → curr2 p = curr p) →
        (∀ p, p < nr_total → slot_used curr p = false → slot_used curr2 p = false) →
        print_procs nr_total kernelticks idleticks buf prev curr2 cputimemode
          = print_procs nr_total kernelticks idleticks buf prev curr cputimemode := by
  refine ⟨fun s p h => step_not_used prev curr cputimemode s p h, ?_, ?_, ?_⟩
  · rw [print_procs_state, loop_entries, List.map_map]
    exact List.map_id _
  · rw [print_procs_state, loop_nprocs]
  · intro curr2 hsame hunused
    have hloop : print_procs_loop nr_total buf prev curr2 cputimemode
        = print_procs_loop nr_total buf prev curr cputimemode := by
      unfold print_procs_loop
      apply List.foldl_ext
      intro s p hp
      have hlt : p < nr_total := List.mem_range.mp hp
      by_cases hu : slot_used curr p = true
      · have he := hsame p hlt hu
        simp only [print_procs_step, he]
      · have hf : slot_used curr p = false := by simpa using hu
        rw [step_not_used prev curr cputimemode s p hf,
          step_not_used prev curr2 cputimemode s p (hunused p hlt hf)]
    unfold print_procs
    rw [hloop]

theorem unused_slot_contributes_nothing_witness :
    print_procs 3 0 0 blank_buffer gap_prev gap_curr_changed 7
      = print_procs 3 0 0 blank_buffer gap_prev gap_curr 7 :=
  (unused_slot_contributes_nothing 3 0 0 blank_buffer gap_prev gap_curr 7).2.2.2
    gap_curr_changed (by decide) (by decide)

/-- C8: for every pair of tables and every mask, if the `total_ticks`
accumulated by `print_procs` is zero then nothing is printed and no quotient
is formed; whenever quotients are formed, `total_ticks` is not zero, there
are four of them, and the divisor of each is that non-zero `total_ticks`. -/
theorem zero_total_no_report (nr_total kernelticks idleticks : Nat) (buf : Nat → tp)
    (prev curr : Nat → proc) (cputimemode : Int) :
    ((print_procs nr_total kernelticks idleticks buf prev curr cputimemode).state.total_ticks = 0 →
        (print_procs nr_total kernelticks idleticks buf prev curr cputimemode).printed = none) ∧
      (∀ r, (print_procs nr_total kernelticks idleticks buf prev curr cputimemode).printed
          = some r →
        (print_procs nr_total kernelticks idleticks buf prev curr cputimemode).state.total_ticks
            ≠ 0 ∧
          r.length = 4 ∧
          ∀ d ∈ r, d.divisor
              = (print_procs nr_total kernelticks idleticks buf prev curr
                  cputimemode).state.total_ticks ∧ d.divisor ≠ 0) := by
  rw [print_procs_state]
  refine ⟨fun h => (printed_none_iff _ _ _ _ _ _ _).mpr h, ?_⟩
  intro r hr
  refine ⟨?_, ?_, fun d hd => printed_divisor _ _ _ _ _ _ _ r hr d hd⟩
  · intro h0
    rw [(printed_none_iff _ _ _ _ _ _ _).mpr h0] at hr
    simp at hr
  · unfold print_procs at hr
    simp only [] at hr
    split_ifs at hr
    simp only [Option.some.injEq] at hr
    subst hr
    rfl

theorem zero_total_no_report_witness :
    (print_procs 3 0 0 blank_buffer gap_curr gap_curr 7).state.total_ticks = 0 ∧
      (print_procs 3 0 0 blank_buffer gap_curr gap_curr 7).printed = none :=
  ⟨by decide, (zero_total_no_report 3 0 0 blank_buffer gap_curr gap_curr 7).1 (by decide)⟩

/-! ## Buckets against the total -/

theorem cputicks_user_only_mask (p1 p2 : proc) (m : Int) (h1 : CPUTIME m 1 = 0)
    (h2 : CPUTIME m 2 = 0) :
    cputicks p1 p2 m = if CPUTIME m 0 = 0 then 0 else cputicks p1 p2 1 := by
  have a0 : CPUTIME 1 0 ≠ 0 := by decide
  have a1 : CPUTIME 1 1 = 0 := by decide
  have a2 : CPUTIME 1 2 = 0 := by decide
  rw [cputicks_unroll, cputicks_unroll]
  simp only [cputicks_step, h1, h2, a0, a1, a2, if_true, if_false]

theorem slot_sum_buckets_le (a b c : Nat → Bool) (t u : Nat → Nat)
    (hab : ∀ p, a p = true → b p = false) (hac : ∀ p, a p = true → c p = true)
    (hbc : ∀ p, b p = true → c p = true) (htu : ∀ p, t p ≤ u p) (l : List Nat) :
    slot_sum (l.filter a) t + slot_sum (l.filter b) t ≤ slot_sum (l.filter c) u := by
  induction l with
  | nil => simp [slot_sum]
  | cons p l ih =>
    have h1 := hab p
    have h2 := hac p
    have h3 := hbc p
    have h4 := htu p
    simp only [slot_sum] at ih ⊢
    clear hab hac hbc htu
    cases ha : a p <;> cases hb : b p <;> cases hc : c p <;>
      simp_all [List.filter_cons] <;> omega

theorem slot_sum_buckets_eq (a b c : Nat → Bool) (t : Nat → Nat)
    (hab : ∀ p, a p = true → b p = false) (hac : ∀ p, a p = true → c p = true)
    (hbc : ∀ p, b p = true → c p = true) (l : List Nat)
    (hcov : ∀ p ∈ l, c p = true → a p = true ∨ b p = true) :
    slot_sum (l.filter a) t + slot_sum (l.filter b) t = slot_sum (l.filter c) t := by
  induction l with
  | nil => simp [slot_sum]
  | cons p l ih =>
    have h1 := hab p
    have h2 := hac p
    have h3 := hbc p
    have h5 := hcov p (List.mem_cons_self p l)
    have ih2 := ih (fun q hq => hcov q (List.mem_cons_of_mem p hq))
    simp only [slot_sum] at ih2 ⊢
    clear hab hac hbc hcov ih
    cases ha : a p <;> cases hb : b p <;> cases hc : c p <;>
      simp_all [List.filter_cons] <;> omega

/-- C10 (counterexample): one `USED` user process with the same identity in
both tables, counters [10,4,0] then [11,6,0] (non-decreasing, no wrap),
`cputimemode` 7. The user bucket holds 3 ticks and `total_ticks` is 1, so
`userticks + systemticks` exceeds `total_ticks` and the printed user quotient
is `100.0 * 3 / 1`. -/
theorem buckets_exceed_total :
    (print_procs 1 0 0 blank_buffer one_user_prev one_user_curr 7).state.userticks = 3 ∧
      (print_procs 1 0 0 blank_buffer one_user_prev one_user_curr 7).state.systemticks = 0 ∧
      (print_procs 1 0 0 blank_buffer one_user_prev one_user_curr 7).state.total_ticks = 1 ∧
      ¬ ((print_procs 1 0 0 blank_buffer one_user_prev one_user_curr 7).state.userticks
          + (print_procs 1 0 0 blank_buffer one_user_prev one_user_curr 7).state.systemticks
          ≤ (print_procs 1 0 0 blank_buffer one_user_prev one_user_curr 7).state.total_ticks) ∧
      (print_procs 1 0 0 blank_buffer one_user_prev one_user_curr 7).printed
        = some [{ dividend := 3, divisor := 1 }, { dividend := 0, divisor := 1 },
                { dividend := 0, divisor := 1 }, { dividend := 0, divisor := 1 }] := by
  decide

/-- C10 (amended): for every pair of tables and every `cputimemode` that selects
no category other than category 0 (user), the category the total is counted
in, if the sum of the category-0 deltas of the `USED` slots does not wrap 64
bits, then `userticks + systemticks <= total_ticks` as tick counts; and the
two buckets sum to exactly `total_ticks` when `cputimemode` selects category
0 and no `USED` slot is `IS_TASK`. The statement is about the `u64_t` totals:
the floating-point quotients that `printf` rounds to two decimals are not
part of it. -/
theorem buckets_le_total (nr_total kernelticks idleticks : Nat) (buf : Nat → tp)
    (prev curr : Nat → proc) (cputimemode : Int)
    (h1 : CPUTIME cputimemode 1 = 0) (h2 : CPUTIME cputimemode 2 = 0)
    (hnowrap : slot_sum (used_slots nr_total curr) (slot_ticks prev curr 1) < U64_MOD) :
    (print_procs nr_total kernelticks idleticks buf prev curr cputimemode).state.userticks
        + (print_procs nr_total kernelticks idleticks buf prev curr cputimemode).state.systemticks
        ≤ (print_procs nr_total kernelticks idleticks buf prev curr
            cputimemode).state.total_ticks ∧
      (CPUTIME cputimemode 0 ≠ 0 →
        (∀ p, p < nr_total → slot_used curr p = true → slot_task curr p = false) →
        (print_procs nr_total kernelticks idleticks buf prev curr cputimemode).state.userticks
          + (print_procs nr_total kernelticks idleticks buf prev curr
              cputimemode).state.systemticks
          = (print_procs nr_total kernelticks idleticks buf prev curr
              cputimemode).state.total_ticks) := by
  rw [print_procs_state, loop_user, loop_system, loop_total, Nat.mod_eq_of_lt hnowrap]
  have htu : ∀ p, slot_ticks prev curr cputimemode p ≤ slot_ticks prev curr 1 p := by
    intro p
    unfold slot_ticks
    rw [cputicks_user_only_mask (prev p) (curr p) cputimemode h1 h2]
    split_ifs
    · exact Nat.zero_le _
    · exact Nat.le_refl _
  have hle : slot_sum (user_slots nr_total curr) (slot_ticks prev curr cputimemode)
      + slot_sum (system_slots nr_total curr) (slot_ticks prev curr cputimemode)
      ≤ slot_sum (used_slots nr_total curr) (slot_ticks prev curr 1) := by
    unfold user_slots system_slots used_slots
    apply slot_sum_buckets_le _ _ _ _ _ _ _ _ htu
    · intro p hp; simp_all
    · intro p hp; simp_all
    · intro p hp; simp_all
  have hu := Nat.mod_le (slot_sum (user_slots nr_total curr) (slot_ticks prev curr cputimemode))
    U64_MOD
  have hs := Nat.mod_le
    (slot_sum (system_slots nr_total curr) (slot_ticks prev curr cputimemode)) U64_MOD
  refine ⟨by omega, ?_⟩
  · intro h0 hnotask
    have heq : ∀ p, slot_ticks prev curr cputimemode p = slot_ticks prev curr 1 p := by
      intro p
      unfold slot_ticks
      rw [cputicks_user_only_mask (prev p) (curr p) cputimemode h1 h2, if_neg h0]
    have hfun : slot_ticks prev curr cputimemode = slot_ticks prev curr 1 := funext heq
    have hsum : slot_sum (user_slots nr_total curr) (slot_ticks prev curr cputimemode)
        + slot_sum (system_slots nr_total curr) (slot_ticks prev curr cputimemode)
        = slot_sum (used_slots nr_total curr) (slot_ticks prev curr 1) := by
      rw [hfun]
      unfold user_slots system_slots used_slots
      apply slot_sum_buckets_eq
      · intro p hp; simp_all
      · intro p hp; simp_all
      · intro p hp; simp_all
      · intro p hp hc
        have ht := hnotask p (List.mem_range.mp hp) hc
        cases hsys : slot_system curr p <;> simp [hc, ht]
    rw [Nat.mod_eq_of_lt (by omega), Nat.mod_eq_of_lt (by omega)]
    exact hsum

theorem buckets_le_total_witness :
    (print_procs 3 0 0 blank_buffer mixed_prev mixed_curr 1).state.userticks
        + (print_procs 3 0 0 blank_buffer mixed_prev mixed_curr 1).state.systemticks
        ≤ (print_procs 3 0 0 blank_buffer mixed_prev mixed_curr 1).state.total_ticks :=
  (buckets_le_total 3 0 0 blank_buffer mixed_prev mixed_curr 1 (by decide) (by decide)
    (by decide)).1

end Top
